import Mathlib

/-! Verification of the Turing-Machine repository (src/turingmachine.py).

The Python code is shallowly embedded: the Tape class becomes a structure
holding the backing list and the head index, and the TuringMachine class
becomes a structure holding the tape, the control state, the cached input
symbol, the state sets and the transition table.  Python None cells are
modelled by Option.none; a Python dict is an association list looked up
with List.lookup; Python exceptions (IndexError from list indexing,
KeyError from dict indexing) are modelled with Option results. -/

namespace TuringRepo

/-- Embedding of the Python class Tape: the field named after the
attribute holding the backing list (cells hold an optional symbol, with
none being the Python None blank) and the attribute holding the head
index.  In Python the head index never becomes negative (it starts at 0,
and a left move at 0 grows the list first), so Nat is faithful. -/
structure Tape (α : Type) where
  _list : List (Option α)
  _loc : Nat
  deriving Repr, DecidableEq

namespace Tape

/-- Source attribute min bound: set to 0 in the constructor and never
modified afterwards (left expansion shifts the head index instead). -/
def _min_loc (_ : Tape α) : Nat := 0

/-- Source attribute max bound, recomputed by the private helper as the
list length minus one, which is -1 for an empty backing list, hence an
Int. -/
def _max_loc (t : Tape α) : Int := (t._list.length : Int) - 1

/-- Embedding of the Tape constructor: with a truthy (nonempty) initial
state the backing list is its cells; otherwise a truthy (nonzero) start
size gives that many blank cells; otherwise the list is empty.  The head
starts at 0. -/
def init (initial_state : List α) (start_size : Nat) : Tape α :=
  match initial_state with
  | _ :: _ => { _list := initial_state.map some, _loc := 0 }
  | [] =>
    if start_size ≠ 0 then
      { _list := List.replicate start_size none, _loc := 0 }
    else
      { _list := [], _loc := 0 }

/-- Embedding of the left move: if the head sits at the min bound (0) the
tape grows by one blank cell on the left (the private left expansion
increments the head index and prepends None), then the head moves one
cell left. -/
def move_left (t : Tape α) : Tape α :=
  if t._loc = 0 then
    { _list := none :: t._list, _loc := 0 }
  else
    { t with _loc := t._loc - 1 }

/-- Embedding of the right move: if the head sits at the max bound (the
list length minus one; over the integers the comparison is equivalent to
head index plus one equalling the length, since the index is nonnegative)
the tape grows by one blank cell on the right, then the head moves one
cell right. -/
def move_right (t : Tape α) : Tape α :=
  if t._loc + 1 = t._list.length then
    { _list := t._list ++ [none], _loc := t._loc + 1 }
  else
    { t with _loc := t._loc + 1 }

/-- Embedding of the read operation: index the backing list at the head.
The outer Option is the possible IndexError; the inner Option is the cell
value (none = blank). -/
def get_char (t : Tape α) : Option (Option α) :=
  t._list[t._loc]?

/-- Embedding of the write operation: assign the cell at the head.
Python raises IndexError when the head is outside the backing list, so
the result is an Option. -/
def set_char (t : Tape α) (value : Option α) : Option (Tape α) :=
  if t._loc < t._list.length then
    some { t with _list := t._list.set t._loc value }
  else
    none

/-- Embedding of the serialization: join every item of the backing list
that is not None, in list order. -/
def get_string (t : Tape Char) : String :=
  String.mk ((t._list.filter (fun item => item ≠ none)).filterMap (fun item => item))

/-- The head index is a valid index into the backing storage.  With the
min bound constantly 0 and the max bound the length minus one, this is
exactly the spec invariant that the head lies within the bounds (the
lower bound is automatic for Nat). -/
def headValid (t : Tape α) : Prop := t._loc < t._list.length

instance (t : Tape α) : Decidable t.headValid :=
  inferInstanceAs (Decidable (t._loc < t._list.length))

end Tape

/-- One call of the Tape public interface: a left move, a right move, a
read, or a write of a given value. -/
inductive TapeOp (α : Type) where
  | move_left
  | move_right
  | get_char
  | set_char (value : Option α)
  deriving Repr, DecidableEq

namespace Tape

/-- Perform one interface call; none is the Python exception escaping the
call (only the read and write can raise, via list indexing). -/
def apply_op (t : Tape α) : TapeOp α → Option (Tape α)
  | .move_left => some t.move_left
  | .move_right => some t.move_right
  | .get_char => (t.get_char).map (fun _ => t)
  | .set_char value => t.set_char value

/-- Perform a sequence of interface calls, stopping at the first
failure. -/
def apply_ops (t : Tape α) : List (TapeOp α) → Option (Tape α)
  | [] => some t
  | op :: ops => (t.apply_op op).bind (fun t2 => t2.apply_ops ops)

/-- A single head move, the subject of the growth invariant. -/
inductive Move where
  | left
  | right
  deriving Repr, DecidableEq

/-- Perform one head move. -/
def apply_move (t : Tape α) : Move → Tape α
  | .left => t.move_left
  | .right => t.move_right

/-- Perform a sequence of head moves. -/
def apply_moves (t : Tape α) : List Move → Tape α
  | [] => t
  | m :: ms => (t.apply_move m).apply_moves ms

/-- A move is a boundary crossing when the head sits on the allocated
boundary it is about to step over: at the min bound 0 for a left move, at
the max bound (length minus one) for a right move — exactly the growth
conditions of the two move methods. -/
def crossing (t : Tape α) : Move → Bool
  | .left => t._loc = 0
  | .right => t._loc + 1 = t._list.length

/-- Number of boundary crossings along a sequence of moves. -/
def crossings (t : Tape α) : List Move → Nat
  | [] => 0
  | m :: ms => (if t.crossing m then 1 else 0) + (t.apply_move m).crossings ms

end Tape

/-- Constant right of the nested direction enumeration class. -/
def direction_right : Char := 'R'

/-- Constant left of the nested direction enumeration class. -/
def direction_left : Char := 'L'

/-- Constant stay of the nested direction enumeration class.  A
transition direction is a plain character, so values outside the three
constants are representable. -/
def direction_stay : Char := 'S'

/-- Embedding of the Python class TuringMachine.  States are an arbitrary
type; tape symbols are optional characters (none = blank); the transition
dict maps (state, symbol) to (next state, output symbol, direction) and
is modelled as an association list. -/
structure TuringMachine (σ : Type) where
  tape : Tape Char
  states : List σ
  current_state : σ
  current_input : Option Char
  _accepting_states : List σ
  _rejecting_states : List σ
  _transition_fn : List ((σ × Option Char) × (σ × Option Char × Char))
  deriving DecidableEq

namespace TuringMachine

variable {σ : Type} [DecidableEq σ]

/-- Embedding of the single-step method.  The result is none when a
Python exception escapes before any attribute was touched (IndexError
from the read on an invalid head).  The paired flag is false for the
KeyError of the dict lookup; the machine component is then the object
state the raising statement leaves behind: the cached input was already
reassigned, nothing else changed.  On success the flag is true: the state
is updated, the output symbol is written at the head, and the head moves
right on the right constant, left on the left constant, and stays put on
any other direction value (the if/elif/elif chain has no else). -/
def advance (m : TuringMachine σ) : Option (TuringMachine σ × Bool) :=
  match m.tape.get_char with
  | none => none
  | some sym =>
    match m._transition_fn.lookup (m.current_state, sym) with
    | none => some ({ m with current_input := sym }, false)
    | some (next_state, char_out, direction) =>
      match m.tape.set_char char_out with
      | none => none
      | some t1 =>
        let t2 :=
          if direction = direction_right then t1.move_right
          else if direction = direction_left then t1.move_left
          else t1
        some ({ m with current_state := next_state, current_input := sym, tape := t2 }, true)

/-- Outcome of the fuel-indexed run loop. -/
inductive RunResult (σ : Type) where
  | accepted (m : TuringMachine σ)
  | error
  | out_of_fuel (m : TuringMachine σ)
  deriving DecidableEq

/-- Embedding of the run method with the default arguments (no drawing,
no configuration printing): loop while the current state is not in the
accepting set, calling the single-step method each iteration; on exit
return the final machine (its tape serialization is the Python return
value, see the run-string function).  The fuel bounds how many iterations
are unfolded; the Python loop is unbounded, so a run that never accepts
is out of fuel for every fuel value. -/
def run (fuel : Nat) (m : TuringMachine σ) : RunResult σ :=
  if m.current_state ∈ m._accepting_states then .accepted m
  else
    match fuel with
    | 0 => .out_of_fuel m
    | fuel2 + 1 =>
      match m.advance with
      | some (m2, true) => run fuel2 m2
      | some (_, false) => .error
      | none => .error

/-- The string the run method returns: the tape serialization of the
final machine, when the loop exited normally. -/
def run_string : RunResult σ → Option String
  | .accepted m => some m.tape.get_string
  | _ => none

/-- Embedding of the configuration-printing branch of the run loop
(executed after the single-step method returned): it looks the transition
dict up at the pair of the already-updated current state and the symbol
just read, and prints the current state, that symbol, and the output
symbol, next state and direction of that entry.  The result is none for
the KeyError when that pair has no entry. -/
def printed_config (m : TuringMachine σ) :
    Option (σ × Option Char × Option Char × σ × Char) :=
  (m._transition_fn.lookup (m.current_state, m.current_input)).map
    (fun r => (m.current_state, m.current_input, r.2.1, r.1, r.2.2))

/-- The 5-tuple (current state, input symbol, output symbol, next state,
direction) of the transition taken by a successful step from the given
machine: the pre-step state, the symbol under the head, and the table
entry for that pair. -/
def taken_transition (m : TuringMachine σ) :
    Option (σ × Option Char × Option Char × σ × Char) :=
  m.tape.get_char.bind (fun sym =>
    (m._transition_fn.lookup (m.current_state, sym)).map
      (fun r => (m.current_state, sym, r.2.1, r.1, r.2.2)))

end TuringMachine

/-- The 26 lowercase letters in order, as in the Python string module. -/
def ascii_lowercase : List Char :=
  (List.range 26).map (fun i => Char.ofNat (97 + i))

/-- Embedding of the demo cipher helper: shift a lowercase letter by the
given amount, wrapping modulo 26 (Int.emod matches the Python percent
operator, nonnegative for the positive modulus, so the negative shifts of
the decrypt table wrap correctly). -/
def cipher (c : Char) (shift : Int) : Char :=
  Char.ofNat ((((c.toNat : Int) - 97 + shift).emod 26 + 97).toNat)

/-- Embedding of the demo transition dict (the encrypt run passes the
shift, the decrypt run its negation).  For each lowercase letter c it
defines (0, c) to (1, c, stay), (1, c) to (1, cipher of c, right) and
(1, None) to (2, None, stay) — the last one re-inserted 26 times with the
same value — then (s, space) to (s, space, right) for each state s. -/
def demo_transitions (shift : Int) :
    List ((Nat × Option Char) × (Nat × Option Char × Char)) :=
  (ascii_lowercase.flatMap (fun c =>
    [((0, some c), (1, some c, direction_stay)),
     ((1, some c), (1, some (cipher c shift), direction_right)),
     ((1, (none : Option Char)), (2, (none : Option Char), direction_stay))]))
  ++ ([0, 1, 2].map (fun s =>
    ((s, some ' '), (s, some ' ', direction_right))))

/-- Embedding of the demo machine construction: a fresh tape holding the
input, initial state 0, states 0 to 2, accepting state 2, no rejecting
states, and the transition table for the given shift.  The constructor
caches the head symbol as the current input (the demo inputs are
nonempty, so the read succeeds; the default is only for totality). -/
def demo_machine (input : String) (shift : Int) : TuringMachine Nat :=
  let t : Tape Char := Tape.init input.toList 0
  { tape := t
    states := [0, 1, 2]
    current_state := 0
    current_input := t.get_char.getD none
    _accepting_states := [2]
    _rejecting_states := []
    _transition_fn := demo_transitions shift }

/-- A machine mid-run of the demo: explicit tape cells, head position,
state and cached input, with the state sets and transition table of the
demo machine. -/
def demo_config (shift : Int) (cells : List (Option Char)) (loc state : Nat)
    (inp : Option Char) : TuringMachine Nat :=
  { tape := { _list := cells, _loc := loc }
    states := [0, 1, 2]
    current_state := state
    current_input := inp
    _accepting_states := [2]
    _rejecting_states := []
    _transition_fn := demo_transitions shift }

/-- A machine whose initial state is already accepting (empty transition
table, tape holding a single letter). -/
def tiny_machine : TuringMachine Nat :=
  { tape := Tape.init ['a'] 0
    states := [0]
    current_state := 0
    current_input := some 'a'
    _accepting_states := [0]
    _rejecting_states := []
    _transition_fn := [] }

/-- A machine sitting forever in its rejecting state 0: the sole
transition rewrites the same symbol and stays, and the accepting set is
empty. -/
def reject_machine : TuringMachine Nat :=
  { tape := Tape.init ['a'] 0
    states := [0]
    current_state := 0
    current_input := some 'a'
    _accepting_states := []
    _rejecting_states := [0]
    _transition_fn := [((0, some 'a'), (0, some 'a', direction_stay))] }

/-- A machine whose first step goes from state 0 to state 1 while staying
put, where the table also has an entry for state 1 under the same symbol:
after the step, the configuration print looks up that second entry, not
the transition just taken. -/
def print_demo_machine : TuringMachine Nat :=
  { tape := Tape.init ['a'] 0
    states := [0, 1]
    current_state := 0
    current_input := some 'a'
    _accepting_states := []
    _rejecting_states := []
    _transition_fn :=
      [((0, some 'a'), (1, some 'a', direction_stay)),
       ((1, some 'a'), (1, some 'b', direction_right))] }

/-- A machine whose single step reaches its accepting state: after that
step the configuration print looks up a pair with no entry and raises
KeyError even though the step itself succeeded. -/
def print_crash_machine : TuringMachine Nat :=
  { tape := Tape.init ['a'] 0
    states := [0, 1]
    current_state := 0
    current_input := some 'a'
    _accepting_states := [1]
    _rejecting_states := []
    _transition_fn := [((0, some 'a'), (1, some 'a', direction_stay))] }

/-- A machine whose sole transition carries the direction value X, which
is none of the three direction constants. -/
def xdir_machine : TuringMachine Nat :=
  { tape := Tape.init ['a'] 0
    states := [0, 1]
    current_state := 0
    current_input := some 'a'
    _accepting_states := [1]
    _rejecting_states := []
    _transition_fn := [((0, some 'a'), (1, some 'b', 'X'))] }

/-- The serialization the spec describes: the concatenation of the
non-blank symbols of the backing list in left-to-right storage order
(List.filterMap drops exactly the none cells and keeps the order). -/
def nonblank_concat (t : Tape Char) : String :=
  String.mk (t._list.filterMap (fun c => c))

/-! Helper lemmas. -/

theorem filter_ne_none_filterMap {α : Type} [DecidableEq α] (l : List (Option α)) :
    (l.filter (fun i => i ≠ none)).filterMap (fun i => i) = l.filterMap (fun i => i) := by
  induction l with
  | nil => rfl
  | cons a l ih => cases a <;> simp_all

theorem headValid_apply_op {α : Type} (t : Tape α) (op : TapeOp α) (h : t.headValid) :
    ∃ t2, t.apply_op op = some t2 ∧ t2.headValid := by
  cases op with
  | move_left =>
    refine ⟨t.move_left, rfl, ?_⟩
    unfold Tape.move_left Tape.headValid at *
    split <;> simp_all <;> omega
  | move_right =>
    refine ⟨t.move_right, rfl, ?_⟩
    unfold Tape.move_right Tape.headValid at *
    split <;> simp_all <;> omega
  | get_char =>
    refine ⟨t, ?_, h⟩
    unfold Tape.apply_op Tape.get_char
    simp [List.getElem?_eq_getElem h]
  | set_char v =>
    refine ⟨{ t with _list := t._list.set t._loc v }, ?_, ?_⟩
    · have h2 : t._loc < t._list.length := h
      simp [Tape.apply_op, Tape.set_char, h2]
    · simpa [Tape.headValid] using h

theorem headValid_apply_ops {α : Type} (ops : List (TapeOp α)) (t : Tape α) (h : t.headValid) :
    ∃ t2, t.apply_ops ops = some t2 ∧ t2.headValid := by
  induction ops generalizing t with
  | nil => exact ⟨t, rfl, h⟩
  | cons op ops ih =>
    obtain ⟨t1, h1, hv1⟩ := headValid_apply_op t op h
    obtain ⟨t2, h2, hv2⟩ := ih t1 hv1
    exact ⟨t2, by simp [Tape.apply_ops, h1, h2], hv2⟩

theorem headValid_init {α : Type} (initial : List α) (size : Nat)
    (h : initial ≠ [] ∨ size ≠ 0) : (Tape.init initial size).headValid := by
  unfold Tape.init Tape.headValid
  match initial with
  | _ :: _ => simp
  | [] =>
    simp at h ⊢
    simp [h]
    omega

theorem length_apply_move {α : Type} (t : Tape α) (m : Tape.Move) :
    (t.apply_move m)._list.length =
      t._list.length + (if t.crossing m then 1 else 0) := by
  cases m <;>
    simp [Tape.apply_move, Tape.move_left, Tape.move_right, Tape.crossing] <;>
    split <;> simp_all

theorem run_accepted_mem_aux {σ : Type} [DecidableEq σ] :
    ∀ (fuel : Nat) (m m2 : TuringMachine σ),
      TuringMachine.run fuel m = TuringMachine.RunResult.accepted m2 →
      m2.current_state ∈ m2._accepting_states := by
  intro fuel
  induction fuel with
  | zero =>
    intro m m2 h
    unfold TuringMachine.run at h
    split at h
    · cases h; assumption
    · simp at h
  | succ n ih =>
    intro m m2 h
    unfold TuringMachine.run at h
    split at h
    · cases h; assumption
    · rcases h3 : m.advance with _ | ⟨m3, flag⟩ <;> rw [h3] at h
      · simp at h
      · cases flag
        · simp at h
        · exact ih m3 m2 h

theorem reject_advance : reject_machine.advance = some (reject_machine, true) := by
  decide

theorem reject_runs_forever :
    ∀ fuel, TuringMachine.run fuel reject_machine =
      TuringMachine.RunResult.out_of_fuel reject_machine := by
  intro fuel
  induction fuel with
  | zero => decide
  | succ n ih =>
    unfold TuringMachine.run
    rw [reject_advance]
    simpa using ih

theorem run_step {σ : Type} [DecidableEq σ] (fuel : Nat) (m m2 : TuringMachine σ)
    (h : m.current_state ∉ m._accepting_states) (h2 : m.advance = some (m2, true)) :
    TuringMachine.run (fuel + 1) m = TuringMachine.run fuel m2 := by
  conv_lhs => rw [TuringMachine.run]
  simp [h, h2]

theorem run_accept {σ : Type} [DecidableEq σ] (fuel : Nat) (m : TuringMachine σ)
    (h : m.current_state ∈ m._accepting_states) :
    TuringMachine.run fuel m = TuringMachine.RunResult.accepted m := by
  unfold TuringMachine.run
  simp [h]

/-! Claim theorems. -/

/-- Claim C1, counterexample: the constructor can produce a Tape on which
operations do fail.  A falsy initial state with no start size yields an
empty backing list with the head at 0: the read raises IndexError, and
after one right move the head index 1 exceeds the max bound -1. -/
theorem empty_tape_breaks_bounds :
    (Tape.init ([] : List Char) 0).apply_op TapeOp.get_char = none ∧
    ¬ (((Tape.init ([] : List Char) 0).move_right._loc : Int) ≤
        (Tape.init ([] : List Char) 0).move_right._max_loc) := by
  decide

/-- Claim C1, amended: for every Tape produced by the constructor from a
nonempty initial symbol sequence or a nonzero start size, every finite
sequence of move/read/write calls succeeds (no operation fails) and
leaves the head index within the min and max bounds, so the read and the
write never index outside the backing storage. -/
theorem tape_head_always_in_bounds {α : Type} (initial : List α) (size : Nat)
    (h : initial ≠ [] ∨ size ≠ 0) (ops : List (TapeOp α)) :
    ∃ t2, (Tape.init initial size).apply_ops ops = some t2 ∧
      ((t2._min_loc : Int) ≤ (t2._loc : Int) ∧ (t2._loc : Int) ≤ t2._max_loc) := by
  obtain ⟨t2, h2, hv⟩ := headValid_apply_ops ops _ (headValid_init initial size h)
  refine ⟨t2, h2, ?_⟩
  have hv2 : t2._loc < t2._list.length := hv
  unfold Tape._min_loc Tape._max_loc
  omega

/-- Witness for the amended claim C1, at a blank tape of start size 2
with the call sequence left move, write, read, right move, right move. -/
theorem tape_head_always_in_bounds_witness :
    (([] : List Char) ≠ [] ∨ (2 : Nat) ≠ 0) ∧
    ∃ t2, (Tape.init ([] : List Char) 2).apply_ops
        [TapeOp.move_left, TapeOp.set_char (some 'z'), TapeOp.get_char,
         TapeOp.move_right, TapeOp.move_right] = some t2 ∧
      ((t2._min_loc : Int) ≤ (t2._loc : Int) ∧ (t2._loc : Int) ≤ t2._max_loc) :=
  ⟨Or.inr (by decide),
   tape_head_always_in_bounds ([] : List Char) 2 (Or.inr (by decide))
     [TapeOp.move_left, TapeOp.set_char (some 'z'), TapeOp.get_char,
      TapeOp.move_right, TapeOp.move_right]⟩

/-- Claim C2: the run loop repeatedly invokes the single-step method
while the current state is not in the accepting set; once the current
state is accepting it returns the tape serialization of the final
machine.  In particular an initially accepting machine is returned
unchanged — zero steps — with the serialization of the initial tape. -/
theorem run_loop_characterization {σ : Type} [DecidableEq σ]
    (m : TuringMachine σ) (fuel : Nat) :
    (m.current_state ∈ m._accepting_states →
      TuringMachine.run fuel m = TuringMachine.RunResult.accepted m ∧
      TuringMachine.run_string (TuringMachine.run fuel m) = some m.tape.get_string) ∧
    (m.current_state ∉ m._accepting_states →
      TuringMachine.run (fuel + 1) m =
        match m.advance with
        | some (m2, true) => TuringMachine.run fuel m2
        | some (_, false) => TuringMachine.RunResult.error
        | none => TuringMachine.RunResult.error) := by
  constructor
  · intro h
    constructor
    · unfold TuringMachine.run
      simp [h]
    · unfold TuringMachine.run
      simp [h, TuringMachine.run_string]
  · intro h
    conv_lhs => rw [TuringMachine.run]
    simp [h]

/-- Witness for claim C2: the initially accepting machine is returned
after zero steps with its tape serialized, and a non-accepting machine
makes the loop step through the single-step method. -/
theorem run_loop_characterization_witness :
    (tiny_machine.current_state ∈ tiny_machine._accepting_states ∧
      TuringMachine.run 5 tiny_machine = TuringMachine.RunResult.accepted tiny_machine ∧
      TuringMachine.run_string (TuringMachine.run 5 tiny_machine) = some "a") ∧
    (reject_machine.current_state ∉ reject_machine._accepting_states ∧
      TuringMachine.run 3 reject_machine =
        (match reject_machine.advance with
         | some (m2, true) => TuringMachine.run 2 m2
         | some (_, false) => TuringMachine.RunResult.error
         | none => TuringMachine.RunResult.error)) :=
  ⟨⟨by decide,
    ((run_loop_characterization tiny_machine 5).1 (by decide)).1,
    ((run_loop_characterization tiny_machine 5).1 (by decide)).2.trans (by decide)⟩,
   ⟨by decide,
    (run_loop_characterization reject_machine 2).2 (by decide)⟩⟩

/-- Claim C3: the single-step method reads the symbol at the head; if the
pair of current state and symbol has no table entry it fails (KeyError)
and the resulting object differs from the original only in the cached
input — the control state, the tape contents and the head position are
untouched; when the lookup succeeds, the result is applied: state update,
symbol write at the head, then the head move chosen by the direction. -/
theorem advance_miss_is_fatal_and_atomic {σ : Type} [DecidableEq σ]
    (m : TuringMachine σ) (sym : Option Char)
    (hread : m.tape.get_char = some sym) :
    (m._transition_fn.lookup (m.current_state, sym) = none →
      m.advance = some ({ m with current_input := sym }, false)) ∧
    (∀ next_state char_out direction,
      m._transition_fn.lookup (m.current_state, sym) =
          some (next_state, char_out, direction) →
      m.tape.set_char char_out =
          some { m.tape with _list := m.tape._list.set m.tape._loc char_out } ∧
      m.advance = some
        ({ m with
            current_state := next_state
            current_input := sym
            tape :=
              if direction = direction_right then
                ({ m.tape with _list := m.tape._list.set m.tape._loc char_out } : Tape Char).move_right
              else if direction = direction_left then
                ({ m.tape with _list := m.tape._list.set m.tape._loc char_out } : Tape Char).move_left
              else
                { m.tape with _list := m.tape._list.set m.tape._loc char_out } }, true)) := by
  have hlt : m.tape._loc < m.tape._list.length := by
    by_contra hc
    unfold Tape.get_char at hread
    rw [List.getElem?_eq_none (by omega)] at hread
    cases hread
  constructor
  · intro hmiss
    simp [TuringMachine.advance, hread, hmiss]
  · intro ns co d hhit
    have hset : m.tape.set_char co =
        some { m.tape with _list := m.tape._list.set m.tape._loc co } := by
      simp [Tape.set_char, hlt]
    refine ⟨hset, ?_⟩
    simp [TuringMachine.advance, hread, hhit, hset]

/-- Witness for claim C3: a machine with an empty table fails its step
with everything but the cached input unchanged, and the self-looping
machine applies its transition. -/
theorem advance_miss_is_fatal_and_atomic_witness :
    tiny_machine.tape.get_char = some (some 'a') ∧
    tiny_machine.advance = some ({ tiny_machine with current_input := some 'a' }, false) ∧
    reject_machine.advance = some (reject_machine, true) :=
  ⟨by decide,
   (advance_miss_is_fatal_and_atomic tiny_machine (some 'a') (by decide)).1 (by decide),
   (((advance_miss_is_fatal_and_atomic reject_machine (some 'a') (by decide)).2
       0 (some 'a') direction_stay (by decide)).2).trans (by decide)⟩

/-- Claim C4: the run loop returns only machines whose current state lies
in the accepting set — rejecting-set membership is never checked — so the
concrete machine sitting in its rejecting state with a self-loop runs out
of any amount of fuel (it runs forever). -/
theorem run_halts_only_on_accepting {σ : Type} [DecidableEq σ] :
    (∀ (fuel : Nat) (m m2 : TuringMachine σ),
      TuringMachine.run fuel m = TuringMachine.RunResult.accepted m2 →
      m2.current_state ∈ m2._accepting_states) ∧
    reject_machine.current_state ∈ reject_machine._rejecting_states ∧
    reject_machine.current_state ∉ reject_machine._accepting_states ∧
    (∀ fuel : Nat, TuringMachine.run fuel reject_machine =
      TuringMachine.RunResult.out_of_fuel reject_machine) :=
  ⟨fun fuel m m2 h => run_accepted_mem_aux fuel m m2 h,
   by decide, by decide, reject_runs_forever⟩

/-- Witness for claim C4: the accepted result of a concrete run is in an
accepting state, and the rejecting machine is still looping after three
steps of fuel. -/
theorem run_halts_only_on_accepting_witness :
    tiny_machine.current_state ∈ tiny_machine._accepting_states ∧
    TuringMachine.run 3 reject_machine =
      TuringMachine.RunResult.out_of_fuel reject_machine :=
  ⟨(@run_halts_only_on_accepting Nat _).1 5 tiny_machine tiny_machine (by decide),
   (@run_halts_only_on_accepting Nat _).2.2.2 3⟩


/-- Claim C5 (code bug): the configuration print after a step does not
show the transition just taken.  The step of the demo print machine takes
the transition from state 0 (tuple (0, a, a, 1, S)), but because the
current state is already updated when the print looks the table up, the
printed tuple is (1, a, b, 1, R).  On the crash machine the printed
lookup even raises KeyError although the step succeeded. -/
theorem print_configs_prints_wrong_transition :
    (print_demo_machine.advance.map (fun p => TuringMachine.printed_config p.1))
      = some (some (1, some 'a', some 'b', 1, direction_right)) ∧
    TuringMachine.taken_transition print_demo_machine
      = some (0, some 'a', some 'a', 1, direction_stay) ∧
    (print_demo_machine.advance.map (fun p => TuringMachine.printed_config p.1))
      ≠ some (TuringMachine.taken_transition print_demo_machine) ∧
    (print_crash_machine.advance.map (fun p => (TuringMachine.printed_config p.1, p.2)))
      = some (none, true) := by
  refine ⟨rfl, rfl, ?_, rfl⟩
  intro hcontra
  cases hcontra

/-- Claim C6: growth invariant — after any sequence of moves the backing
storage length is exactly the starting length plus the number of boundary
crossings, hence at most the starting length plus the number of moves; a
crossing move grows the list by exactly one blank cell on the crossed
side, and a non-crossing move leaves the backing list untouched. -/
theorem tape_growth_invariant {α : Type} (t : Tape α) (ms : List Tape.Move) :
    (t.apply_moves ms)._list.length = t._list.length + t.crossings ms ∧
    t.crossings ms ≤ ms.length ∧
    (t._loc = 0 → t.move_left._list = none :: t._list) ∧
    (t._loc + 1 = t._list.length → t.move_right._list = t._list ++ [none]) ∧
    (t._loc ≠ 0 → t.move_left._list = t._list) ∧
    (t._loc + 1 ≠ t._list.length → t.move_right._list = t._list) := by
  refine ⟨?_, ?_, ?_, ?_, ?_, ?_⟩
  · induction ms generalizing t with
    | nil => simp [Tape.apply_moves, Tape.crossings]
    | cons m ms ih =>
      have := length_apply_move t m
      simp only [Tape.apply_moves, Tape.crossings, ih (t.apply_move m)]
      omega
  · induction ms generalizing t with
    | nil => simp [Tape.crossings]
    | cons m ms ih =>
      have := ih (t.apply_move m)
      simp only [Tape.crossings, List.length_cons]
      split <;> omega
  · intro h
    simp [Tape.move_left, h]
  · intro h
    simp [Tape.move_right, h]
  · intro h
    simp [Tape.move_left, h]
  · intro h
    simp [Tape.move_right, h]

/-- Witness for claim C6 at a two-cell tape with the move sequence left,
right, right, right (two crossings: the initial left move and the final
right move). -/
theorem tape_growth_invariant_witness :
    ((Tape.init ['a', 'b'] 0).apply_moves
        [Tape.Move.left, Tape.Move.right, Tape.Move.right, Tape.Move.right])._list.length
      = (Tape.init ['a', 'b'] 0)._list.length +
          (Tape.init ['a', 'b'] 0).crossings
            [Tape.Move.left, Tape.Move.right, Tape.Move.right, Tape.Move.right] ∧
    (Tape.init ['a', 'b'] 0).move_left._list = none :: (Tape.init ['a', 'b'] 0)._list :=
  ⟨(tape_growth_invariant (Tape.init ['a', 'b'] 0)
      [Tape.Move.left, Tape.Move.right, Tape.Move.right, Tape.Move.right]).1,
   (tape_growth_invariant (Tape.init ['a', 'b'] 0) []).2.2.1 (by decide)⟩

/-- Claim C7: the serialization returns the concatenation of exactly the
non-blank symbols in left-to-right storage order, omitting every blank
cell entirely, wherever the blanks occur. -/
theorem get_string_omits_blanks (t : Tape Char) :
    t.get_string = nonblank_concat t := by
  unfold Tape.get_string nonblank_concat
  rw [filter_ne_none_filterMap]

/-- Claim C9: write/read round trip — on a tape with a valid head
position, writing any symbol (including the blank marker) and immediately
reading with no intervening move returns exactly that symbol. -/
theorem set_get_round_trip {α : Type} (t : Tape α) (x : Option α)
    (h : t.headValid) :
    (t.set_char x).bind Tape.get_char = some x := by
  have h2 : t._loc < t._list.length := h
  simp [Tape.set_char, h2, Tape.get_char, List.getElem?_set_eq_of_lt]

/-- Witness for claim C9: writing the blank marker over the first cell of
a two-letter tape and reading it back. -/
theorem set_get_round_trip_witness :
    (Tape.init ['a', 'b'] 0).headValid ∧
    ((Tape.init ['a', 'b'] 0).set_char none).bind Tape.get_char =
      some (none : Option Char) :=
  ⟨by decide, set_get_round_trip (Tape.init ['a', 'b'] 0) none (by decide)⟩

/-- Claim C10: when the looked-up transition carries a direction value
that is none of the three direction constants, the step completes without
any error exactly as if the direction were the stay constant: the state
update and the tape write are applied, while the head position and the
backing storage length are unchanged. -/
theorem unknown_direction_acts_as_stay {σ : Type} [DecidableEq σ]
    (m : TuringMachine σ) (sym : Option Char) (next_state : σ)
    (char_out : Option Char) (d : Char)
    (hread : m.tape.get_char = some sym)
    (hhit : m._transition_fn.lookup (m.current_state, sym) =
      some (next_state, char_out, d))
    (hR : d ≠ direction_right) (hL : d ≠ direction_left)
    (hS : d ≠ direction_stay) :
    m.advance = some
      ({ m with
          current_state := next_state
          current_input := sym
          tape := { m.tape with _list := m.tape._list.set m.tape._loc char_out } }, true) ∧
    ({ m.tape with _list := m.tape._list.set m.tape._loc char_out } : Tape Char)._loc
      = m.tape._loc ∧
    ({ m.tape with _list := m.tape._list.set m.tape._loc char_out } : Tape Char)._list.length
      = m.tape._list.length := by
  have h0 := (advance_miss_is_fatal_and_atomic m sym hread).2 next_state char_out d hhit
  refine ⟨?_, rfl, by simp⟩
  rw [h0.2]
  simp [hR, hL]

/-- Witness for claim C10 at the machine whose sole transition carries
the direction value X. -/
theorem unknown_direction_acts_as_stay_witness :
    xdir_machine.tape.get_char = some (some 'a') ∧
    List.lookup (xdir_machine.current_state, some 'a') xdir_machine._transition_fn
      = some (1, some 'b', 'X') ∧
    ('X' ≠ direction_right ∧ 'X' ≠ direction_left ∧ 'X' ≠ direction_stay) ∧
    xdir_machine.advance = some
      ({ xdir_machine with
          current_state := 1
          current_input := some 'a'
          tape := { xdir_machine.tape with
            _list := xdir_machine.tape._list.set xdir_machine.tape._loc (some 'b') } }, true) :=
  ⟨by decide, by decide, ⟨by decide, by decide, by decide⟩,
   (unknown_direction_acts_as_stay xdir_machine (some 'a') 1 (some 'b') 'X'
      (by decide) (by decide) (by decide) (by decide) (by decide)).1⟩


/-- Claim C8: cipher round trip — the demo encrypt table (shift 5) takes the
tape `"hello world"` to the ciphertext `"mjqqt btwqi"` in 13 steps, and the
mirrored decrypt table (shift `-5`) run on that ciphertext reproduces
exactly `"hello world"`: spaces pass through unchanged and lowercase
letters wrap modulo the 26-letter alphabet. -/
theorem cipher_round_trip :
    TuringMachine.run_string (TuringMachine.run 13 (demo_machine "hello world" 5))
      = some "mjqqt btwqi" ∧
    (match TuringMachine.run_string (TuringMachine.run 13 (demo_machine "hello world" 5)) with
     | some ciphertext =>
         TuringMachine.run_string (TuringMachine.run 13 (demo_machine ciphertext (-5)))
     | none => none)
      = some "hello world" := by
  have e0 :
      TuringMachine.run 13 (demo_machine "hello world" 5) =
        TuringMachine.run 12 (demo_config (5) [some 'h', some 'e', some 'l', some 'l', some 'o', some ' ', some 'w', some 'o', some 'r', some 'l', some 'd'] 0 1 (some 'h')) :=
    run_step 12 _ _ (by decide) rfl
  have e1 :
      TuringMachine.run 12 (demo_config (5) [some 'h', some 'e', some 'l', some 'l', some 'o', some ' ', some 'w', some 'o', some 'r', some 'l', some 'd'] 0 1 (some 'h')) =
        TuringMachine.run 11 (demo_config (5) [some 'm', some 'e', some 'l', some 'l', some 'o', some ' ', some 'w', some 'o', some 'r', some 'l', some 'd'] 1 1 (some 'h')) :=
    run_step 11 _ _ (by decide) rfl
  have e2 :
      TuringMachine.run 11 (demo_config (5) [some 'm', some 'e', some 'l', some 'l', some 'o', some ' ', some 'w', some 'o', some 'r', some 'l', some 'd'] 1 1 (some 'h')) =
        TuringMachine.run 10 (demo_config (5) [some 'm', some 'j', some 'l', some 'l', some 'o', some ' ', some 'w', some 'o', some 'r', some 'l', some 'd'] 2 1 (some 'e')) :=
    run_step 10 _ _ (by decide) rfl
  have e3 :
      TuringMachine.run 10 (demo_config (5) [some 'm', some 'j', some 'l', some 'l', some 'o', some ' ', some 'w', some 'o', some 'r', some 'l', some 'd'] 2 1 (some 'e')) =
        TuringMachine.run 9 (demo_config (5) [some 'm', some 'j', some 'q', some 'l', some 'o', some ' ', some 'w', some 'o', some 'r', some 'l', some 'd'] 3 1 (some 'l')) :=
    run_step 9 _ _ (by decide) rfl
  have e4 :
      TuringMachine.run 9 (demo_config (5) [some 'm', some 'j', some 'q', some 'l', some 'o', some ' ', some 'w', some 'o', some 'r', some 'l', some 'd'] 3 1 (some 'l')) =
        TuringMachine.run 8 (demo_config (5) [some 'm', some 'j', some 'q', some 'q', some 'o', some ' ', some 'w', some 'o', some 'r', some 'l', some 'd'] 4 1 (some 'l')) :=
    run_step 8 _ _ (by decide) rfl
  have e5 :
      TuringMachine.run 8 (demo_config (5) [some 'm', some 'j', some 'q', some 'q', some 'o', some ' ', some 'w', some 'o', some 'r', some 'l', some 'd'] 4 1 (some 'l')) =
        TuringMachine.run 7 (demo_config (5) [some 'm', some 'j', some 'q', some 'q', some 't', some ' ', some 'w', some 'o', some 'r', some 'l', some 'd'] 5 1 (some 'o')) :=
    run_step 7 _ _ (by decide) rfl
  have e6 :
      TuringMachine.run 7 (demo_config (5) [some 'm', some 'j', some 'q', some 'q', some 't', some ' ', some 'w', some 'o', some 'r', some 'l', some 'd'] 5 1 (some 'o')) =
        TuringMachine.run 6 (demo_config (5) [some 'm', some 'j', some 'q', some 'q', some 't', some ' ', some 'w', some 'o', some 'r', some 'l', some 'd'] 6 1 (some ' ')) :=
    run_step 6 _ _ (by decide) rfl
  have e7 :
      TuringMachine.run 6 (demo_config (5) [some 'm', some 'j', some 'q', some 'q', some 't', some ' ', some 'w', some 'o', some 'r', some 'l', some 'd'] 6 1 (some ' ')) =
        TuringMachine.run 5 (demo_config (5) [some 'm', some 'j', some 'q', some 'q', some 't', some ' ', some 'b', some 'o', some 'r', some 'l', some 'd'] 7 1 (some 'w')) :=
    run_step 5 _ _ (by decide) rfl
  have e8 :
      TuringMachine.run 5 (demo_config (5) [some 'm', some 'j', some 'q', some 'q', some 't', some ' ', some 'b', some 'o', some 'r', some 'l', some 'd'] 7 1 (some 'w')) =
        TuringMachine.run 4 (demo_config (5) [some 'm', some 'j', some 'q', some 'q', some 't', some ' ', some 'b', some 't', some 'r', some 'l', some 'd'] 8 1 (some 'o')) :=
    run_step 4 _ _ (by decide) rfl
  have e9 :
      TuringMachine.run 4 (demo_config (5) [some 'm', some 'j', some 'q', some 'q', some 't', some ' ', some 'b', some 't', some 'r', some 'l', some 'd'] 8 1 (some 'o')) =
        TuringMachine.run 3 (demo_config (5) [some 'm', some 'j', some 'q', some 'q', some 't', some ' ', some 'b', some 't', some 'w', some 'l', some 'd'] 9 1 (some 'r')) :=
    run_step 3 _ _ (by decide) rfl
  have e10 :
      TuringMachine.run 3 (demo_config (5) [some 'm', some 'j', some 'q', some 'q', some 't', some ' ', some 'b', some 't', some 'w', some 'l', some 'd'] 9 1 (some 'r')) =
        TuringMachine.run 2 (demo_config (5) [some 'm', some 'j', some 'q', some 'q', some 't', some ' ', some 'b', some 't', some 'w', some 'q', some 'd'] 10 1 (some 'l')) :=
    run_step 2 _ _ (by decide) rfl
  have e11 :
      TuringMachine.run 2 (demo_config (5) [some 'm', some 'j', some 'q', some 'q', some 't', some ' ', some 'b', some 't', some 'w', some 'q', some 'd'] 10 1 (some 'l')) =
        TuringMachine.run 1 (demo_config (5) [some 'm', some 'j', some 'q', some 'q', some 't', some ' ', some 'b', some 't', some 'w', some 'q', some 'i', none] 11 1 (some 'd')) :=
    run_step 1 _ _ (by decide) rfl
  have e12 :
      TuringMachine.run 1 (demo_config (5) [some 'm', some 'j', some 'q', some 'q', some 't', some ' ', some 'b', some 't', some 'w', some 'q', some 'i', none] 11 1 (some 'd')) =
        TuringMachine.run 0 (demo_config (5) [some 'm', some 'j', some 'q', some 'q', some 't', some ' ', some 'b', some 't', some 'w', some 'q', some 'i', none] 11 2 (none)) :=
    run_step 0 _ _ (by decide) rfl
  have eacc :
      TuringMachine.run 0 (demo_config (5) [some 'm', some 'j', some 'q', some 'q', some 't', some ' ', some 'b', some 't', some 'w', some 'q', some 'i', none] 11 2 (none)) =
        TuringMachine.RunResult.accepted (demo_config (5) [some 'm', some 'j', some 'q', some 'q', some 't', some ' ', some 'b', some 't', some 'w', some 'q', some 'i', none] 11 2 (none)) :=
    run_accept 0 _ (by decide)
  have henc :
      TuringMachine.run_string (TuringMachine.run 13 (demo_machine "hello world" 5))
        = some "mjqqt btwqi" := by
    rw [e0, e1, e2, e3, e4, e5, e6, e7, e8, e9, e10, e11, e12, eacc]
    decide
  refine ⟨henc, ?_⟩
  rw [henc]
  show TuringMachine.run_string (TuringMachine.run 13 (demo_machine "mjqqt btwqi" (-5)))
    = some "hello world"
  have d0 :
      TuringMachine.run 13 (demo_machine "mjqqt btwqi" (-5)) =
        TuringMachine.run 12 (demo_config (-5) [some 'm', some 'j', some 'q', some 'q', some 't', some ' ', some 'b', some 't', some 'w', some 'q', some 'i'] 0 1 (some 'm')) :=
    run_step 12 _ _ (by decide) rfl
  have d1 :
      TuringMachine.run 12 (demo_config (-5) [some 'm', some 'j', some 'q', some 'q', some 't', some ' ', some 'b', some 't', some 'w', some 'q', some 'i'] 0 1 (some 'm')) =
        TuringMachine.run 11 (demo_config (-5) [some 'h', some 'j', some 'q', some 'q', some 't', some ' ', some 'b', some 't', some 'w', some 'q', some 'i'] 1 1 (some 'm')) :=
    run_step 11 _ _ (by decide) rfl
  have d2 :
      TuringMachine.run 11 (demo_config (-5) [some 'h', some 'j', some 'q', some 'q', some 't', some ' ', some 'b', some 't', some 'w', some 'q', some 'i'] 1 1 (some 'm')) =
        TuringMachine.run 10 (demo_config (-5) [some 'h', some 'e', some 'q', some 'q', some 't', some ' ', some 'b', some 't', some 'w', some 'q', some 'i'] 2 1 (some 'j')) :=
    run_step 10 _ _ (by decide) rfl
  have d3 :
      TuringMachine.run 10 (demo_config (-5) [some 'h', some 'e', some 'q', some 'q', some 't', some ' ', some 'b', some 't', some 'w', some 'q', some 'i'] 2 1 (some 'j')) =
        TuringMachine.run 9 (demo_config (-5) [some 'h', some 'e', some 'l', some 'q', some 't', some ' ', some 'b', some 't', some 'w', some 'q', some 'i'] 3 1 (some 'q')) :=
    run_step 9 _ _ (by decide) rfl
  have d4 :
      TuringMachine.run 9 (demo_config (-5) [some 'h', some 'e', some 'l', some 'q', some 't', some ' ', some 'b', some 't', some 'w', some 'q', some 'i'] 3 1 (some 'q')) =
        TuringMachine.run 8 (demo_config (-5) [some 'h', some 'e', some 'l', some 'l', some 't', some ' ', some 'b', some 't', some 'w', some 'q', some 'i'] 4 1 (some 'q')) :=
    run_step 8 _ _ (by decide) rfl
  have d5 :
      TuringMachine.run 8 (demo_config (-5) [some 'h', some 'e', some 'l', some 'l', some 't', some ' ', some 'b', some 't', some 'w', some 'q', some 'i'] 4 1 (some 'q')) =
        TuringMachine.run 7 (demo_config (-5) [some 'h', some 'e', some 'l', some 'l', some 'o', some ' ', some 'b', some 't', some 'w', some 'q', some 'i'] 5 1 (some 't')) :=
    run_step 7 _ _ (by decide) rfl
  have d6 :
      TuringMachine.run 7 (demo_config (-5) [some 'h', some 'e', some 'l', some 'l', some 'o', some ' ', some 'b', some 't', some 'w', some 'q', some 'i'] 5 1 (some 't')) =
        TuringMachine.run 6 (demo_config (-5) [some 'h', some 'e', some 'l', some 'l', some 'o', some ' ', some 'b', some 't', some 'w', some 'q', some 'i'] 6 1 (some ' ')) :=
    run_step 6 _ _ (by decide) rfl
  have d7 :
      TuringMachine.run 6 (demo_config (-5) [some 'h', some 'e', some 'l', some 'l', some 'o', some ' ', some 'b', some 't', some 'w', some 'q', some 'i'] 6 1 (some ' ')) =
        TuringMachine.run 5 (demo_config (-5) [some 'h', some 'e', some 'l', some 'l', some 'o', some ' ', some 'w', some 't', some 'w', some 'q', some 'i'] 7 1 (some 'b')) :=
    run_step 5 _ _ (by decide) rfl
  have d8 :
      TuringMachine.run 5 (demo_config (-5) [some 'h', some 'e', some 'l', some 'l', some 'o', some ' ', some 'w', some 't', some 'w', some 'q', some 'i'] 7 1 (some 'b')) =
        TuringMachine.run 4 (demo_config (-5) [some 'h', some 'e', some 'l', some 'l', some 'o', some ' ', some 'w', some 'o', some 'w', some 'q', some 'i'] 8 1 (some 't')) :=
    run_step 4 _ _ (by decide) rfl
  have d9 :
      TuringMachine.run 4 (demo_config (-5) [some 'h', some 'e', some 'l', some 'l', some 'o', some ' ', some 'w', some 'o', some 'w', some 'q', some 'i'] 8 1 (some 't')) =
        TuringMachine.run 3 (demo_config (-5) [some 'h', some 'e', some 'l', some 'l', some 'o', some ' ', some 'w', some 'o', some 'r', some 'q', some 'i'] 9 1 (some 'w')) :=
    run_step 3 _ _ (by decide) rfl
  have d10 :
      TuringMachine.run 3 (demo_config (-5) [some 'h', some 'e', some 'l', some 'l', some 'o', some ' ', some 'w', some 'o', some 'r', some 'q', some 'i'] 9 1 (some 'w')) =
        TuringMachine.run 2 (demo_config (-5) [some 'h', some 'e', some 'l', some 'l', some 'o', some ' ', some 'w', some 'o', some 'r', some 'l', some 'i'] 10 1 (some 'q')) :=
    run_step 2 _ _ (by decide) rfl
  have d11 :
      TuringMachine.run 2 (demo_config (-5) [some 'h', some 'e', some 'l', some 'l', some 'o', some ' ', some 'w', some 'o', some 'r', some 'l', some 'i'] 10 1 (some 'q')) =
        TuringMachine.run 1 (demo_config (-5) [some 'h', some 'e', some 'l', some 'l', some 'o', some ' ', some 'w', some 'o', some 'r', some 'l', some 'd', none] 11 1 (some 'i')) :=
    run_step 1 _ _ (by decide) rfl
  have d12 :
      TuringMachine.run 1 (demo_config (-5) [some 'h', some 'e', some 'l', some 'l', some 'o', some ' ', some 'w', some 'o', some 'r', some 'l', some 'd', none] 11 1 (some 'i')) =
        TuringMachine.run 0 (demo_config (-5) [some 'h', some 'e', some 'l', some 'l', some 'o', some ' ', some 'w', some 'o', some 'r', some 'l', some 'd', none] 11 2 (none)) :=
    run_step 0 _ _ (by decide) rfl
  have dacc :
      TuringMachine.run 0 (demo_config (-5) [some 'h', some 'e', some 'l', some 'l', some 'o', some ' ', some 'w', some 'o', some 'r', some 'l', some 'd', none] 11 2 (none)) =
        TuringMachine.RunResult.accepted (demo_config (-5) [some 'h', some 'e', some 'l', some 'l', some 'o', some ' ', some 'w', some 'o', some 'r', some 'l', some 'd', none] 11 2 (none)) :=
    run_accept 0 _ (by decide)
  rw [d0, d1, d2, d3, d4, d5, d6, d7, d8, d9, d10, d11, d12, dacc]
  decide

end TuringRepo
